import Mathlib

/-!
Verification of the `system_auditor.py` host-audit tool: a shallow embedding of
its command-execution wrapper (`run_command`), its socket-line parsing
(`get_listening_ports`) and the four report collectors, together with proofs of
the specification's claims about them.

The outcome of the one external effect — launching a child process — is made an
explicit input (`SubprocessOutcome`); everything downstream of it is the pure
string manipulation the Python source performs.
-/

namespace SystemAuditor

/-! ## Python string primitives

The source uses `str.strip()`, `str.split()` (whitespace runs), `str.split(sep)`
and `c in s`.  Strings are modelled through their character lists. -/

/-- Characters Python's `str.strip()` and `str.split()` treat as whitespace
(the ASCII ones; the source only ever meets ASCII command output). -/
def isPySpace (c : Char) : Bool :=
  c == ' ' || c == '\t' || c == '\n' || c == '\r' || c == '\x0b' || c == '\x0c'

/-- Split a character list at every element satisfying `p`, keeping empty
pieces — the semantics of Python's `str.split(sep)` for a one-character
separator, and the raw phase of `str.split()`. -/
def splitOnPList (p : Char → Bool) : List Char → List (List Char)
  | [] => [[]]
  | a :: as =>
    let r := splitOnPList p as
    if p a then [] :: r else (a :: r.headD []) :: r.tail

/-- Python `s.split(c)` for a single-character separator: pieces between
occurrences of `c`, empty pieces kept. -/
def pySplitOnChar (c : Char) (s : String) : List String :=
  (splitOnPList (fun a => a == c) s.data).map (fun l => ⟨l⟩)

/-- Python `s.split()` with no argument: maximal whitespace-free words, no
empty strings. -/
def pySplitWs (s : String) : List String :=
  ((splitOnPList isPySpace s.data).filter (fun l => l ≠ [])).map (fun l => ⟨l⟩)

/-- `str.strip()` on a character list: drop the maximal whitespace prefix and
suffix. -/
def stripList (l : List Char) : List Char :=
  ((l.dropWhile isPySpace).reverse.dropWhile isPySpace).reverse

/-- Python `s.strip()`. -/
def pyStrip (s : String) : String := ⟨stripList s.data⟩

/-- Python `c in s` for a single character `c`. -/
def pyContainsChar (s : String) (c : Char) : Bool :=
  s.data.any (fun a => a == c)

/-! ## The subprocess model

`subprocess.run(command, capture_output=True, text=True, check=True,
timeout=10)` either completes and hands back a `CompletedProcess`, or raises
one of the three exceptions the source catches.  The behaviour of the child
process itself is an input of the model. -/

/-- What the child-process invocation did, before Python turns it into a
return value or an exception. -/
inductive SubprocessOutcome where
  /-- The child ran to completion with this exit code, stdout and stderr. -/
  | completed (returncode : Int) (stdout : String) (stderr : String)
  /-- The executable could not be found (`FileNotFoundError`). -/
  | execNotFound
  /-- The 10-second bound elapsed (`subprocess.TimeoutExpired`). -/
  | timedOut
deriving DecidableEq

/-- The exceptions `subprocess.run` can raise under the source's arguments. -/
inductive PyExc where
  | fileNotFoundError
  | calledProcessError (cmd : List String) (returncode : Int)
      (stdout : String) (stderr : String)
  | timeoutExpired (cmd : List String)
deriving DecidableEq

/-- The fields of `subprocess.CompletedProcess` the source reads. -/
structure CompletedProcess where
  returncode : Int
  stdout : String
  stderr : String
deriving DecidableEq

/-- `subprocess.run` with `check=True`: a completed child with exit code 0 is
returned; a non-zero exit code raises `CalledProcessError`; a missing
executable raises `FileNotFoundError`; an elapsed timeout raises
`TimeoutExpired`. -/
def subprocess_run (command : List String) (outcome : SubprocessOutcome) :
    Except PyExc CompletedProcess :=
  match outcome with
  | .completed rc out err =>
    if rc = 0 then .ok ⟨rc, out, err⟩
    else .error (.calledProcessError command rc out err)
  | .execNotFound => .error .fileNotFoundError
  | .timedOut => .error (.timeoutExpired command)

/-- One operator-visible diagnostic line printed by `run_command`'s except
clauses (the text content is abstracted to its distinguishing structure). -/
inductive Diagnostic where
  /-- The "Command not found" line, carrying `command[0]`. -/
  | commandNotFound (name : String)
  /-- The "Error executing command" line, carrying the joined command. -/
  | commandError (cmd : List String)
  /-- The indented "Stderr:" line, carrying the stripped stderr text. -/
  | commandStderr (stderrText : String)
  /-- The "Command timed out" line, carrying the joined command. -/
  | commandTimedOut (cmd : List String)
deriving DecidableEq

/-- What a call to `run_command` produces: the Python return value
(`str | None`) plus the diagnostic lines printed on the way. -/
structure RunResult where
  ret : Option String
  diagnostics : List Diagnostic
deriving DecidableEq

/-- A Python `try`/`except` boundary: a handled exception is converted to a
value, an unhandled one propagates. -/
def pyTry (body : Except PyExc RunResult)
    (handler : PyExc → Option RunResult) : Except PyExc RunResult :=
  match body with
  | .ok v => .ok v
  | .error e =>
    match handler e with
    | some v => .ok v
    | none => .error e

/-- The `try` block of `run_command`: call `subprocess.run` and return
`result.stdout.strip()`. -/
def run_command_body (command : List String) (outcome : SubprocessOutcome) :
    Except PyExc RunResult :=
  (subprocess_run command outcome).map fun result => ⟨some (pyStrip result.stdout), []⟩

/-- The three `except` clauses of `run_command`.  Each maps its exception to
`None` plus (unless suppressed) the clause's diagnostic lines; an exception
matched by no clause would yield `none` here and escape. -/
def run_command_handler (command : List String) (show_error : Bool) :
    PyExc → Option RunResult := fun e =>
  match e with
  | .fileNotFoundError =>
    some ⟨none, if show_error then [.commandNotFound (command.headD "")] else []⟩
  | .calledProcessError _ _ _ stderrText =>
    some ⟨none,
      if show_error then
        .commandError command ::
          (if stderrText ≠ "" then [.commandStderr (pyStrip stderrText)] else [])
      else []⟩
  | .timeoutExpired _ =>
    some ⟨none, if show_error then [.commandTimedOut command] else []⟩

/-- `run_command` as seen from outside its `try`/`except` boundary: `.ok` when
the boundary converts the outcome to a value, `.error` if an exception were to
escape. -/
def run_command_exc (command : List String) (show_error : Bool)
    (outcome : SubprocessOutcome) : Except PyExc RunResult :=
  pyTry (run_command_body command outcome) (run_command_handler command show_error)

/-- `run_command(command, show_error)` under a given child-process outcome. -/
def run_command (command : List String) (show_error : Bool)
    (outcome : SubprocessOutcome) : RunResult :=
  match run_command_exc command show_error outcome with
  | .ok v => v
  | .error _ => ⟨none, []⟩

/-- Whether a child-process outcome is one of the three failure modes (missing
executable, non-zero exit, timeout). -/
def failedOutcome : SubprocessOutcome → Bool
  | .completed rc _ _ => rc != 0
  | .execNotFound => true
  | .timedOut => true

/-! ## The socket-line parsing of `get_listening_ports`

The loop body of `get_listening_ports` builds, from each data line, the pair
`(local_address_port, process_name)` before formatting it; that record-building
step is the `SocketReportParser` of the specification. -/

/-- One parsed listening-socket record. -/
structure ListeningSocket where
  localAddressPort : String
  processName : String
deriving DecidableEq

/-- `process_info.split('"')[1] if '"' in process_info else 'N/A'`. -/
def extractProcessName (process_info : String) : String :=
  if pyContainsChar process_info '"' then (pySplitOnChar '"' process_info).getD 1 ""
  else "N/A"

/-- The loop body of `get_listening_ports` up to record formation: split the
line on whitespace; at least 5 fields give a record of field 4 and the process
name extracted from field 6 (or `'N/A'` when there is no field 6); fewer than
5 fields give nothing. -/
def parseSocketLine (line : String) : Option ListeningSocket :=
  let parts := pySplitWs line
  if parts.length ≥ 5 then
    let local_address_port := parts.getD 4 ""
    let process_info := if parts.length > 6 then parts.getD 6 "" else "N/A"
    some ⟨local_address_port, extractProcessName process_info⟩
  else none

/-- `SocketReportParser.parse`: strip the raw output, split it into lines,
drop the header line, and parse each remaining line; an input of at most one
line yields no records. -/
def parse (rawOutput : String) : List ListeningSocket :=
  let lines := pySplitOnChar '\n' (pyStrip rawOutput)
  if lines.length ≤ 1 then []
  else (lines.drop 1).filterMap parseSocketLine

/-- The report line `f"  - Port: {local_address_port} | Process: {process_name}"`. -/
def formatPortLine (s : ListeningSocket) : String :=
  "  - Port: " ++ s.localAddressPort ++ " | Process: " ++ s.processName

/-! ## The four collectors -/

/-- The fixed argument vector of the active-users probe. -/
def whoCommand : List String := ["who"]

/-- The fixed argument vector of the recent-logins probe. -/
def lastCommand : List String := ["last", "-n", "10"]

/-- The fixed argument vector of the listening-ports probe. -/
def ssCommand : List String := ["ss", "-tulpn"]

/-- The fixed argument vector of the cloud-metadata probe. -/
def curlCommand : List String :=
  ["curl", "-s", "--connect-timeout", "1", "http://169.254.169.254/latest/meta-data/"]

/-- `get_active_users()`: `None` when the command failed, otherwise the
section with either the fixed empty-output message or the output itself. -/
def get_active_users (outcome : SubprocessOutcome) : Option String :=
  match (run_command whoCommand true outcome).ret with
  | none => none
  | some output =>
    let header := "--- Active Users ---"
    if output = "" then some (header ++ "\n" ++ "No active users found." ++ "\n")
    else some (header ++ "\n" ++ output ++ "\n")

/-- `get_last_logins()`: same shape as `get_active_users` with its own
command, header and empty-output message. -/
def get_last_logins (outcome : SubprocessOutcome) : Option String :=
  match (run_command lastCommand true outcome).ret with
  | none => none
  | some output =>
    let header := "--- Last 10 Logins ---"
    if output = "" then some (header ++ "\n" ++ "No login history found." ++ "\n")
    else some (header ++ "\n" ++ output ++ "\n")

/-- The successful-output half of `get_listening_ports`: strip and split the
output into lines, fall back to the fixed message when only a header (or
nothing) is there or no line parses, otherwise join the formatted port
lines. -/
def render_listening_ports (output : String) : String :=
  let header := "--- Listening Ports ---"
  let lines := pySplitOnChar '\n' (pyStrip output)
  if lines.length ≤ 1 then header ++ "\n" ++ "No listening ports found." ++ "\n"
  else
    let parsed_ports :=
      (lines.drop 1).filterMap (fun line => (parseSocketLine line).map formatPortLine)
    if parsed_ports.isEmpty then header ++ "\n" ++ "No listening ports found." ++ "\n"
    else header ++ "\n" ++ String.intercalate "\n" parsed_ports ++ "\n"

/-- `get_listening_ports()`: `None` when the command failed, otherwise the
rendered section. -/
def get_listening_ports (outcome : SubprocessOutcome) : Option String :=
  match (run_command ssCommand true outcome).ret with
  | none => none
  | some output => some (render_listening_ports output)

/-- The positive body of the cloud-metadata section. -/
def cloudAccessibleBody : String :=
  "✅ Cloud metadata service is accessible. This machine is likely a cloud instance."

/-- The negative body of the cloud-metadata section. -/
def cloudNotFoundBody : String :=
  "ℹ️ Cloud metadata service not found. This is likely not a standard cloud instance."

/-- `check_cloud_metadata()`: runs its command with error reporting
suppressed and always returns a section; the body is positive exactly when
the command succeeded with non-empty output. -/
def check_cloud_metadata (outcome : SubprocessOutcome) : String :=
  let output := (run_command curlCommand false outcome).ret
  let header := "--- Cloud Instance Check ---"
  let report_body :=
    match output with
    | some s => if s = "" then cloudNotFoundBody else cloudAccessibleBody
    | none => cloudNotFoundBody
  header ++ "\n" ++ report_body ++ "\n"

/-! ## Specification-side definitions

Used to compare the code's extraction against the spec's description. -/

/-- The spec's reading of process-name extraction: the characters strictly
after the first double-quote and strictly before the next one (to the end of
the field when no second double-quote exists). -/
def betweenFirstQuotes (s : String) : String :=
  ⟨((s.data.dropWhile (fun c => !(c == '"'))).drop 1).takeWhile (fun c => !(c == '"'))⟩

/-! ## Helper lemmas -/

theorem headD_eq_getD_zero (r : List (List Char)) : r.headD [] = r.getD 0 [] := by
  cases r <;> rfl

theorem getD_one_eq_tail_getD_zero (r : List (List Char)) :
    r.getD 1 [] = r.tail.getD 0 [] := by
  cases r <;> rfl

theorem splitOnPList_cons_pos (p : Char → Bool) (a : Char) (as : List Char)
    (h : p a = true) : splitOnPList p (a :: as) = [] :: splitOnPList p as := by
  simp [splitOnPList, h]

theorem splitOnPList_cons_neg (p : Char → Bool) (a : Char) (as : List Char)
    (h : ¬ p a = true) :
    splitOnPList p (a :: as) =
      (a :: (splitOnPList p as).headD []) :: (splitOnPList p as).tail := by
  simp [splitOnPList, h]

theorem splitOnPList_getD_zero (p : Char → Bool) (l : List Char) :
    (splitOnPList p l).getD 0 [] = l.takeWhile (fun c => !(p c)) := by
  induction l with
  | nil => rfl
  | cons a as ih =>
    by_cases h : p a
    · rw [splitOnPList_cons_pos p a as h, List.getD_cons_zero]
      simp [List.takeWhile_cons, h]
    · rw [splitOnPList_cons_neg p a as h, List.getD_cons_zero, headD_eq_getD_zero, ih]
      simp [List.takeWhile_cons, h]

theorem splitOnPList_getD_one (p : Char → Bool) (l : List Char) (h : l.any p = true) :
    (splitOnPList p l).getD 1 [] =
      ((l.dropWhile (fun c => !(p c))).drop 1).takeWhile (fun c => !(p c)) := by
  induction l with
  | nil => simp at h
  | cons a as ih =>
    by_cases hp : p a
    · rw [splitOnPList_cons_pos p a as hp, List.getD_cons_succ, splitOnPList_getD_zero]
      simp [List.dropWhile_cons, hp]
    · have has : as.any p = true := by
        rcases List.any_eq_true.mp h with ⟨x, hx, hpx⟩
        rcases List.mem_cons.mp hx with rfl | hxas
        · exact absurd hpx (by simp [hp])
        · exact List.any_eq_true.mpr ⟨x, hxas, hpx⟩
      rw [splitOnPList_cons_neg p a as hp, List.getD_cons_succ,
        ← getD_one_eq_tail_getD_zero, ih has]
      simp [List.dropWhile_cons, hp]

theorem getD_map_string_mk (L : List (List Char)) (i : Nat) :
    (L.map (fun l => (⟨l⟩ : String))).getD i "" = ⟨L.getD i []⟩ := by
  induction L generalizing i with
  | nil => cases i <;> rfl
  | cons x xs ih => cases i with
    | zero => rfl
    | succ n => simp only [List.map_cons, List.getD_cons_succ]; exact ih n

theorem run_command_completed_zero (c : List String) (b : Bool) (out err : String) :
    run_command c b (.completed 0 out err) = ⟨some (pyStrip out), []⟩ := rfl

theorem run_command_ret_none_of_failed (c : List String) (b : Bool)
    (o : SubprocessOutcome) (h : failedOutcome o = true) :
    (run_command c b o).ret = none := by
  cases o with
  | completed rc out err =>
    have hrc : ¬ rc = 0 := by simpa [failedOutcome] using h
    simp [run_command, run_command_exc, run_command_body, subprocess_run, pyTry,
      run_command_handler, hrc, Except.map]
  | execNotFound => rfl
  | timedOut => rfl

/-! ## Claim theorems -/

/-- C3: for every argument vector, error-reporting flag and child-process outcome,
every exception the child invocation can raise is converted to an ordinary result
value at the `run_command` try/except boundary: the boundary always yields
`Except.ok`, never an escaping exception, so no command-level failure can terminate
the process from inside a probe. -/
theorem run_command_never_raises (c : List String) (b : Bool) (o : SubprocessOutcome) :
    run_command_exc c b o = Except.ok (run_command c b o) := by
  cases o with
  | completed rc out err =>
    by_cases h : rc = 0 <;>
      simp [run_command, run_command_exc, run_command_body, subprocess_run, pyTry,
        run_command_handler, Except.map, h]
  | execNotFound => rfl
  | timedOut => rfl

/-- C4 counterexample: for captured stdout `" hello"` (a leading space, no trailing
whitespace) a successfully exiting command makes `run_command` return `"hello"`:
the leading whitespace is not preserved, refuting the claim that only trailing
whitespace is removed. -/
theorem run_command_leading_whitespace_refuted :
    (run_command ["x"] true (.completed 0 " hello" "")).ret = some "hello" ∧
    (run_command ["x"] true (.completed 0 " hello" "")).ret ≠ some " hello" := by
  refine ⟨rfl, ?_⟩
  decide

/-- C4 amended: for every captured stdout of a successfully exiting command,
`run_command` returns the text with both the maximal leading and the maximal
trailing whitespace removed (Python `str.strip()`): the returned text is a middle
slice of the captured output and everything removed on either side is whitespace. -/
theorem run_command_trims_both_ends (c : List String) (b : Bool) (out err : String) :
    (run_command c b (.completed 0 out err)).ret = some (pyStrip out) ∧
    ∃ pre suf : List Char,
      out.data = pre ++ (pyStrip out).data ++ suf ∧
      pre.all isPySpace = true ∧ suf.all isPySpace = true := by
  refine ⟨rfl, out.data.takeWhile isPySpace,
    ((out.data.dropWhile isPySpace).reverse.takeWhile isPySpace).reverse, ?_, ?_, ?_⟩
  · have hm : out.data.dropWhile isPySpace =
        (pyStrip out).data ++
          ((out.data.dropWhile isPySpace).reverse.takeWhile isPySpace).reverse := by
      calc out.data.dropWhile isPySpace
          = (out.data.dropWhile isPySpace).reverse.reverse := (List.reverse_reverse _).symm
        _ = ((out.data.dropWhile isPySpace).reverse.takeWhile isPySpace ++
              (out.data.dropWhile isPySpace).reverse.dropWhile isPySpace).reverse := by
            rw [List.takeWhile_append_dropWhile]
        _ = ((out.data.dropWhile isPySpace).reverse.dropWhile isPySpace).reverse ++
              ((out.data.dropWhile isPySpace).reverse.takeWhile isPySpace).reverse := by
            rw [List.reverse_append]
        _ = (pyStrip out).data ++
              ((out.data.dropWhile isPySpace).reverse.takeWhile isPySpace).reverse := rfl
    conv_lhs =>
      rw [← List.takeWhile_append_dropWhile (p := isPySpace) (l := out.data)]
      rw [hm]
    exact (List.append_assoc _ _ _).symm
  · exact List.all_eq_true.mpr fun x hx => List.mem_takeWhile_imp hx
  · exact List.all_eq_true.mpr fun x hx => List.mem_takeWhile_imp (List.mem_reverse.mp hx)

/-- C2 counterexample: at concrete inputs, the three failure outcomes — missing
executable, non-zero exit and timeout — all yield the same return value `none`,
so a caller cannot tell them apart from `run_command`'s return value alone,
refuting the claimed `Failure(kind, detail)` classification of the return value. -/
theorem run_command_failure_kinds_indistinct :
    (run_command ["ls"] true SubprocessOutcome.execNotFound).ret = none ∧
    (run_command ["ls"] true SubprocessOutcome.timedOut).ret = none ∧
    (run_command ["ls"] true (SubprocessOutcome.completed 1 "" "boom")).ret = none := by
  refine ⟨rfl, rfl, ?_⟩
  decide

/-- C2 amended: `run_command` collapses all three failure kinds (missing
executable, non-zero exit, timeout) to the single return value `None`; the
return value distinguishes failure from success (success returns the stripped
stdout string), but the three failure kinds are mutually indistinguishable from
the return value alone. -/
theorem run_command_failures_collapse (c : List String) (b : Bool) (rc : Int)
    (out err : String) (h : rc ≠ 0) :
    (run_command c b (.completed rc out err)).ret = none ∧
    (run_command c b .execNotFound).ret = none ∧
    (run_command c b .timedOut).ret = none ∧
    ∀ out2 err2 : String,
      (run_command c b (.completed 0 out2 err2)).ret = some (pyStrip out2) := by
  refine ⟨?_, rfl, rfl, fun out2 err2 => rfl⟩
  exact run_command_ret_none_of_failed c b _ (by simp [failedOutcome, h])

/-- Witness for the amended C2 theorem at the concrete exit code 1. -/
theorem run_command_failures_collapse_witness :
    (1 : Int) ≠ 0 ∧
    ((run_command ["ls"] true (.completed 1 "" "boom")).ret = none ∧
     (run_command ["ls"] true .execNotFound).ret = none ∧
     (run_command ["ls"] true .timedOut).ret = none ∧
     ∀ out2 err2 : String,
       (run_command ["ls"] true (.completed 0 out2 err2)).ret = some (pyStrip out2)) :=
  ⟨by decide, run_command_failures_collapse ["ls"] true 1 "" "boom" (by decide)⟩

/-- The socket-listing sample input of the specification's testable property:
a header line followed by one `LISTEN` data line (with no leading `Netid`
column). -/
def socketSpecSample : String :=
  "State Recv-Q Send-Q Local Address:Port Peer Address:Port Process\nLISTEN 0 128 0.0.0.0:22 0.0.0.0:* users:((\"sshd\",pid=1,fd=3))"

/-- C1 counterexample: on the specification's sample input the parser does not
return the claimed record `(localAddressPort = "0.0.0.0:22", processName =
"sshd")` — the sample data line has only six whitespace-separated fields, so
field 4 is the peer address `"0.0.0.0:*"` and there is no field 6. -/
theorem parse_spec_sample_refuted :
    parse socketSpecSample ≠ [⟨"0.0.0.0:22", "sshd"⟩] := by
  decide

/-- C1 amended: on the specification's sample input the parser returns exactly
one record, whose `localAddressPort` is `"0.0.0.0:*"` (field 4 of the sample
data line, which lacks the leading `Netid` column of real `ss -tulpn` output)
and whose `processName` is `"N/A"` (the line has no field 6). -/
theorem parse_spec_sample_actual :
    parse socketSpecSample = [⟨"0.0.0.0:*", "N/A"⟩] := by
  decide

/-- On a genuine `ss -tulpn` line, which carries the extra leading `Netid`
column, the parser does extract the local address:port and the quoted process
name the specification's sample intends. -/
theorem parse_with_netid_column :
    parse ("Netid State Recv-Q Send-Q Local Address:Port Peer Address:Port Process\ntcp LISTEN 0 128 0.0.0.0:22 0.0.0.0:* users:((\"sshd\",pid=1,fd=3))")
      = [⟨"0.0.0.0:22", "sshd"⟩] := by
  decide

/-- C5: for every input line of the socket-line parser, fewer than 5
whitespace-separated fields produce no record, and at least 5 fields produce
exactly one record whose `localAddressPort` is the field at zero-based index 4
and whose process name comes from the field at index 6 when the line has one,
else from the literal `"N/A"`. -/
theorem parseSocketLine_field_policy (line : String) :
    ((pySplitWs line).length < 5 → parseSocketLine line = none) ∧
    (5 ≤ (pySplitWs line).length →
      parseSocketLine line = some
        ⟨(pySplitWs line).getD 4 "",
         extractProcessName
           (if 6 < (pySplitWs line).length then (pySplitWs line).getD 6 ""
            else "N/A")⟩) := by
  constructor
  · intro h
    simp only [parseSocketLine]
    rw [if_neg (by omega)]
  · intro h
    simp only [parseSocketLine]
    rw [if_pos h]

/-- Witness for C5: a three-field line is skipped; a five-field line (with no
field 6) yields the record of field 4 and `"N/A"`. -/
theorem parseSocketLine_field_policy_witness :
    ((pySplitWs "LISTEN 0 128").length < 5 ∧
      parseSocketLine "LISTEN 0 128" = none) ∧
    (5 ≤ (pySplitWs "UNCONN 0 0 0.0.0.0:68 0.0.0.0:*").length ∧
      parseSocketLine "UNCONN 0 0 0.0.0.0:68 0.0.0.0:*" = some
        ⟨(pySplitWs "UNCONN 0 0 0.0.0.0:68 0.0.0.0:*").getD 4 "",
         extractProcessName
           (if 6 < (pySplitWs "UNCONN 0 0 0.0.0.0:68 0.0.0.0:*").length then
             (pySplitWs "UNCONN 0 0 0.0.0.0:68 0.0.0.0:*").getD 6 ""
            else "N/A")⟩) :=
  ⟨⟨by decide, (parseSocketLine_field_policy "LISTEN 0 128").1 (by decide)⟩,
   ⟨by decide,
    (parseSocketLine_field_policy "UNCONN 0 0 0.0.0.0:68 0.0.0.0:*").2 (by decide)⟩⟩

/-- C6: for every process-descriptor field, the extracted process name is the
substring strictly between the first double-quote and the next double-quote of
the field when the field contains a double-quote (running to the end of the
field when there is no second double-quote), and the literal `"N/A"`
otherwise. -/
theorem extractProcessName_between_quotes (s : String) :
    extractProcessName s =
      if pyContainsChar s '"' = true then betweenFirstQuotes s else "N/A" := by
  by_cases h : pyContainsChar s '"' = true
  · rw [if_pos h]
    unfold extractProcessName
    rw [if_pos h]
    unfold pySplitOnChar betweenFirstQuotes
    rw [getD_map_string_mk]
    have hany : s.data.any (fun a => a == '"') = true := h
    rw [splitOnPList_getD_one _ _ hany]
  · rw [if_neg h]
    unfold extractProcessName
    rw [if_neg h]

/-- C7: parsing the empty string and parsing a header-only input both return
the empty record list, and whenever the listening-ports command succeeds and
zero records parse from its output the collector still returns a present
section with the fixed "No listening ports found." body. -/
theorem parse_empty_and_header_only :
    parse "" = [] ∧
    parse "State Recv-Q Send-Q Local Address:Port Peer Address:Port Process" = [] ∧
    ∀ (o : SubprocessOutcome) (output : String),
      (run_command ssCommand true o).ret = some output →
      parse output = [] →
      get_listening_ports o =
        some "--- Listening Ports ---\nNo listening ports found.\n" := by
  refine ⟨rfl, by decide, ?_⟩
  intro o output hret hparse
  simp only [get_listening_ports, hret]
  by_cases hlen : (pySplitOnChar '\n' (pyStrip output)).length ≤ 1
  · simp only [render_listening_ports]
    rw [if_pos hlen]
    rfl
  · have hnil : ((pySplitOnChar '\n' (pyStrip output)).drop 1).filterMap
        parseSocketLine = [] := by
      simp only [parse] at hparse
      rwa [if_neg hlen] at hparse
    have hnil2 : ((pySplitOnChar '\n' (pyStrip output)).drop 1).filterMap
        (fun line => (parseSocketLine line).map formatPortLine) = [] := by
      rw [List.filterMap_eq_nil_iff] at hnil ⊢
      intro a ha
      rw [hnil a ha]
      rfl
    simp only [render_listening_ports]
    rw [if_neg hlen, hnil2]
    rfl

/-- Witness for C7: an empty successful output parses to zero records and the
collector returns the fixed message. -/
theorem parse_empty_and_header_only_witness :
    (run_command ssCommand true (.completed 0 "" "")).ret = some "" ∧
    parse "" = [] ∧
    get_listening_ports (.completed 0 "" "") =
      some "--- Listening Ports ---\nNo listening ports found.\n" :=
  ⟨rfl, rfl, (parse_empty_and_header_only).2.2 (.completed 0 "" "") "" rfl rfl⟩

/-- C8: for the active-users, recent-logins and listening-ports collectors, a
failed underlying command yields an absent section (`none`), while a successful
command whose stripped output is empty yields a present section carrying the
probe's fixed "none found" message — two always-distinguishable outcomes. -/
theorem collectors_absent_vs_none_found (o : SubprocessOutcome) (out err : String) :
    (failedOutcome o = true →
      get_active_users o = none ∧ get_last_logins o = none ∧
        get_listening_ports o = none) ∧
    (pyStrip out = "" →
      get_active_users (.completed 0 out err) =
          some "--- Active Users ---\nNo active users found.\n" ∧
        get_last_logins (.completed 0 out err) =
          some "--- Last 10 Logins ---\nNo login history found.\n" ∧
        get_listening_ports (.completed 0 out err) =
          some "--- Listening Ports ---\nNo listening ports found.\n") := by
  constructor
  · intro h
    refine ⟨?_, ?_, ?_⟩ <;>
      simp [get_active_users, get_last_logins, get_listening_ports,
        run_command_ret_none_of_failed _ _ _ h]
  · intro h
    have h1 : ∀ c : List String,
        (run_command c true (.completed 0 out err)).ret = some "" := by
      intro c
      rw [run_command_completed_zero, h]
    refine ⟨?_, ?_, ?_⟩
    · simp only [get_active_users, h1 whoCommand]
      rfl
    · simp only [get_last_logins, h1 lastCommand]
      rfl
    · simp only [get_listening_ports, h1 ssCommand]
      rfl

/-- Witness for C8: a timeout yields three absent sections; a clean empty
output yields the three fixed messages. -/
theorem collectors_absent_vs_none_found_witness :
    (failedOutcome SubprocessOutcome.timedOut = true ∧
      get_active_users SubprocessOutcome.timedOut = none ∧
      get_last_logins SubprocessOutcome.timedOut = none ∧
      get_listening_ports SubprocessOutcome.timedOut = none) ∧
    (pyStrip "" = "" ∧
      get_active_users (.completed 0 "" "") =
        some "--- Active Users ---\nNo active users found.\n" ∧
      get_last_logins (.completed 0 "" "") =
        some "--- Last 10 Logins ---\nNo login history found.\n" ∧
      get_listening_ports (.completed 0 "" "") =
        some "--- Listening Ports ---\nNo listening ports found.\n") := by
  have H := collectors_absent_vs_none_found SubprocessOutcome.timedOut "" ""
  exact ⟨⟨rfl, H.1 rfl⟩, ⟨rfl, H.2 rfl⟩⟩

/-- The section `check_cloud_metadata` returns when the metadata service
answered with non-empty output. -/
def cloudPositiveSection : String :=
  "--- Cloud Instance Check ---" ++ "\n" ++ cloudAccessibleBody ++ "\n"

/-- The section `check_cloud_metadata` returns on any failure or empty
answer. -/
def cloudNegativeSection : String :=
  "--- Cloud Instance Check ---" ++ "\n" ++ cloudNotFoundBody ++ "\n"

/-- C9: the cloud-metadata collector is total over probe outcomes: a
successful command with non-empty output yields the positive section, any
command failure or an empty successful output yields the negative section, and
every outcome yields one of the two — never an absent section. -/
theorem check_cloud_metadata_total (o : SubprocessOutcome) :
    (∀ s : String, (run_command curlCommand false o).ret = some s → s ≠ "" →
      check_cloud_metadata o = cloudPositiveSection) ∧
    ((run_command curlCommand false o).ret = none ∨
        (run_command curlCommand false o).ret = some "" →
      check_cloud_metadata o = cloudNegativeSection) ∧
    (check_cloud_metadata o = cloudPositiveSection ∨
      check_cloud_metadata o = cloudNegativeSection) := by
  refine ⟨?_, ?_, ?_⟩
  · intro s hs hne
    simp only [check_cloud_metadata, hs]
    rw [if_neg hne]
    rfl
  · intro hcase
    rcases hcase with hn | he
    · simp only [check_cloud_metadata, hn]
      rfl
    · simp only [check_cloud_metadata, he]
      rfl
  · cases hret : (run_command curlCommand false o).ret with
    | none =>
      right
      simp only [check_cloud_metadata, hret]
      rfl
    | some s =>
      by_cases hs : s = ""
      · right
        simp only [check_cloud_metadata, hret, hs]
        rfl
      · left
        simp only [check_cloud_metadata, hret]
        rw [if_neg hs]
        rfl

/-- Witness for C9: a timed-out probe still yields the definite negative
section. -/
theorem check_cloud_metadata_total_witness :
    ((run_command curlCommand false SubprocessOutcome.timedOut).ret = none ∨
      (run_command curlCommand false SubprocessOutcome.timedOut).ret = some "") ∧
    check_cloud_metadata SubprocessOutcome.timedOut = cloudNegativeSection :=
  ⟨Or.inl rfl,
   (check_cloud_metadata_total SubprocessOutcome.timedOut).2.1 (Or.inl rfl)⟩

theorem render_listening_ports_shape (output : String) :
    ∃ body, render_listening_ports output =
      "--- Listening Ports ---" ++ "\n" ++ body ++ "\n" := by
  by_cases hlen : (pySplitOnChar '\n' (pyStrip output)).length ≤ 1
  · refine ⟨"No listening ports found.", ?_⟩
    simp only [render_listening_ports]
    rw [if_pos hlen]
  · cases hpp : (((pySplitOnChar '\n' (pyStrip output)).drop 1).filterMap
        (fun line => (parseSocketLine line).map formatPortLine)).isEmpty with
    | true =>
      refine ⟨"No listening ports found.", ?_⟩
      simp only [render_listening_ports]
      rw [if_neg hlen, if_pos hpp]
    | false =>
      refine ⟨String.intercalate "\n"
        (((pySplitOnChar '\n' (pyStrip output)).drop 1).filterMap
          (fun line => (parseSocketLine line).map formatPortLine)), ?_⟩
      simp only [render_listening_ports]
      rw [if_neg hlen, if_neg (by rw [hpp]; exact Bool.false_ne_true)]

/-- C10: every present section of the four collectors, on every child-process
outcome, has the invariant shape: the collector's fixed `--- … ---` header
line, a newline, a body, and a final trailing newline. -/
theorem sections_shape_invariant (o : SubprocessOutcome) (s : String) :
    (get_active_users o = some s →
      ∃ body, s = "--- Active Users ---" ++ "\n" ++ body ++ "\n") ∧
    (get_last_logins o = some s →
      ∃ body, s = "--- Last 10 Logins ---" ++ "\n" ++ body ++ "\n") ∧
    (get_listening_ports o = some s →
      ∃ body, s = "--- Listening Ports ---" ++ "\n" ++ body ++ "\n") ∧
    (∃ body, check_cloud_metadata o =
      "--- Cloud Instance Check ---" ++ "\n" ++ body ++ "\n") := by
  refine ⟨?_, ?_, ?_, ?_⟩
  · intro h
    cases hret : (run_command whoCommand true o).ret with
    | none => simp [get_active_users, hret] at h
    | some output =>
      simp only [get_active_users, hret] at h
      by_cases hout : output = ""
      · rw [if_pos hout] at h
        exact ⟨"No active users found.", (Option.some.inj h).symm⟩
      · rw [if_neg hout] at h
        exact ⟨output, (Option.some.inj h).symm⟩
  · intro h
    cases hret : (run_command lastCommand true o).ret with
    | none => simp [get_last_logins, hret] at h
    | some output =>
      simp only [get_last_logins, hret] at h
      by_cases hout : output = ""
      · rw [if_pos hout] at h
        exact ⟨"No login history found.", (Option.some.inj h).symm⟩
      · rw [if_neg hout] at h
        exact ⟨output, (Option.some.inj h).symm⟩
  · intro h
    cases hret : (run_command ssCommand true o).ret with
    | none => simp [get_listening_ports, hret] at h
    | some output =>
      simp only [get_listening_ports, hret] at h
      rw [← Option.some.inj h]
      exact render_listening_ports_shape output
  · exact ⟨_, rfl⟩

/-- Witness for C10: concrete sections of all four collectors exhibit the
header/newline shape. -/
theorem sections_shape_invariant_witness :
    (∃ body, "--- Active Users ---\nroot tty1\n" =
      "--- Active Users ---" ++ "\n" ++ body ++ "\n") ∧
    (∃ body, "--- Last 10 Logins ---\nNo login history found.\n" =
      "--- Last 10 Logins ---" ++ "\n" ++ body ++ "\n") ∧
    (∃ body, "--- Listening Ports ---\nNo listening ports found.\n" =
      "--- Listening Ports ---" ++ "\n" ++ body ++ "\n") ∧
    (∃ body, check_cloud_metadata SubprocessOutcome.timedOut =
      "--- Cloud Instance Check ---" ++ "\n" ++ body ++ "\n") := by
  refine ⟨?_, ?_, ?_, ?_⟩
  · exact (sections_shape_invariant (.completed 0 "root tty1" "") _).1 (by decide)
  · exact (sections_shape_invariant (.completed 0 "" "") _).2.1 (by decide)
  · exact (sections_shape_invariant (.completed 0 "" "") _).2.2.1 (by decide)
  · exact (sections_shape_invariant SubprocessOutcome.timedOut "").2.2.2

end SystemAuditor
